import Mathlib

/-!
Verification of the call_sim test harness (`call_sim/src/main.rs`).

The file embeds, shallowly:
  * the configuration data model (`AudioConfig`, `VideoConfig`, `CallConfig`,
    `TestCaseConfig`, `GroupConfig`, `NetworkConfig`, `NetworkConfigWithOffset`,
    `NetworkProfile`) as used by the test-set catalogue in `main.rs`;
  * the test-set catalogue itself (the concrete groups, cases and profiles each
    `run_*` function passes to `Test::run`);
  * the control flow of `main` (build, clean, test-set selection, dispatch,
    report) as a trace of events parameterized by the outcomes of the external
    effects.

The bodies of `Test::run`, `Test::report` and the `common`/`docker` modules are
not part of the sources at hand; where a claim depends on them they are
modelled from the specification, and each such definition carries a doc
comment starting with `Modelled from the spec:`.
-/

namespace CallSim

/-- Audio analysis mode; `main.rs` uses `AudioAnalysisMode::Chopped`, the
specification lists `{Full, Chopped}`. -/
inductive AudioAnalysisMode
  | Full
  | Chopped
deriving DecidableEq, Repr

/-- `AudioConfig` as constructed throughout `main.rs`: `input_name` is given a
plain string (`"normal_phrasing".to_string()`), never an `Option`. Field set
and defaults per the spec's data model (§3). -/
structure AudioConfig where
  input_name : String
  packet_size_ms : Nat
  enable_dtx : Bool
  analysis_mode : AudioAnalysisMode
  generate_spectrogram : Bool
deriving DecidableEq, Repr

/-- Modelled from the spec: defaults of `AudioConfig` (`common.rs` is not in
the sources at hand) — `packet_size_ms` defaults to 20 and `enable_dtx` to
true (§3). The spec fixes no default for `input_name`, `analysis_mode` or
`generate_spectrogram`; they are modelled as `""`, `Full` and `true` and no
claim depends on them (`main.rs` overrides them wherever they matter). -/
def defaultAudioConfig : AudioConfig :=
  { input_name := ""
    packet_size_ms := 20
    enable_dtx := true
    analysis_mode := AudioAnalysisMode.Full
    generate_spectrogram := true }

/-- `VideoConfig` as constructed in `main.rs`: exactly two fields (the `vp9`
test case writes a full struct literal with no defaulting), with
`input_name : Option String` (`Some(...)` at every video site). -/
structure VideoConfig where
  input_name : Option String
  enable_vp9 : Bool
deriving DecidableEq, Repr

/-- Modelled from the spec: defaults of `VideoConfig` — `input_name` optional
with no video input by default (client_b of the video tests uses
`CallConfig::default()` and sends no video), `enable_vp9` false (the `vp8`
case relies on the default). -/
def defaultVideoConfig : VideoConfig :=
  { input_name := none, enable_vp9 := false }

/-- `CallConfig` as used in `main.rs`: audio, video, relay servers and the
force-relay flag (§3 of the spec). -/
structure CallConfig where
  audio : AudioConfig
  video : VideoConfig
  relay_servers : List String
  force_relay : Bool
deriving DecidableEq, Repr

/-- Modelled from the spec: `CallConfig::default()` — default audio and video,
no relay servers, relay not forced. -/
def defaultCallConfig : CallConfig :=
  { audio := defaultAudioConfig
    video := defaultVideoConfig
    relay_servers := []
    force_relay := false }

/-- Modelled from the spec: `CallConfig::with_audio_input_name` sets the audio
input name of the configuration (`main.rs` uses it interchangeably with
writing `audio.input_name` directly). -/
def CallConfig.with_audio_input_name (c : CallConfig) (name : String) : CallConfig :=
  { c with audio := { c.audio with input_name := name } }

/-- `TestCaseConfig` as used in `main.rs`: a named pair of per-participant
call configurations with a call length in seconds. -/
structure TestCaseConfig where
  test_case_name : String
  length_seconds : Nat
  client_a_config : CallConfig
  client_b_config : CallConfig
deriving DecidableEq, Repr

/-- Modelled from the spec: `TestCaseConfig::default()` — duration defaults to
30 seconds (§3); the name default is irrelevant, every construction site in
`main.rs` overrides it. -/
def defaultTestCaseConfig : TestCaseConfig :=
  { test_case_name := ""
    length_seconds := 30
    client_a_config := defaultCallConfig
    client_b_config := defaultCallConfig }

/-- Chart dimensions; `main.rs` only ever uses `ChartDimension::Mos`. -/
inductive ChartDimension
  | Mos
deriving DecidableEq, Repr

/-- `GroupConfig` as used in `main.rs`: group name, chart dimensions and
x-axis labels. -/
structure GroupConfig where
  group_name : String
  chart_dimensions : List ChartDimension
  x_labels : List String
deriving DecidableEq, Repr

/-- A point-in-time impairment setting. `main.rs` writes the `rate` field
(kbps) and defaults the rest; the loss field is modelled from the spec
(`loss_percent`), with 0 meaning unimpaired for that dimension. -/
structure NetworkConfig where
  rate : Nat
  loss : Nat
deriving DecidableEq, Repr

/-- Modelled from the spec: `NetworkConfig::default()` — every dimension
unimpaired. -/
def defaultNetworkConfig : NetworkConfig :=
  { rate := 0, loss := 0 }

/-- An impairment setting together with its offset from call start, in
seconds (`Duration::from_secs` in `main.rs`). -/
structure NetworkConfigWithOffset where
  offset : Nat
  network_config : NetworkConfig
deriving DecidableEq, Repr

/-- The network-profile variants used by `main.rs` (the spec's closed sum
type, §3/§9). -/
inductive NetworkProfile
  | None
  | Default
  | Moderate
  | International
  | SpikyLoss
  | LimitedBandwidth (kbps : Nat)
  | SimpleLoss (percent : Nat)
  | Custom (label : String) (sequence : List NetworkConfigWithOffset)
deriving DecidableEq, Repr

/-- Modelled from the spec: the canonical profile label — "a canonical string
derived from the variant and its parameters (e.g. `SimpleLoss(10)` →
`"simple_loss_10"`, `Custom(label, …)` → label)" (§4.1). -/
def profileLabel : NetworkProfile → String
  | NetworkProfile.None => "none"
  | NetworkProfile.Default => "default"
  | NetworkProfile.Moderate => "moderate"
  | NetworkProfile.International => "international"
  | NetworkProfile.SpikyLoss => "spiky_loss"
  | NetworkProfile.LimitedBandwidth k => "limited_bandwidth_" ++ toString k
  | NetworkProfile.SimpleLoss p => "simple_loss_" ++ toString p
  | NetworkProfile.Custom label _ => label

/-! The test-set catalogue: the concrete `(GroupConfig, cases, profiles)`
triples each `run_*` function in `main.rs` passes to `Test::run`. -/

/-- Cases of `run_example`'s single `run` call. -/
def exampleCases : List TestCaseConfig :=
  [{ defaultTestCaseConfig with
      test_case_name := "default"
      client_a_config := defaultCallConfig.with_audio_input_name "normal_phrasing"
      client_b_config := defaultCallConfig }]

/-- Profiles of `run_example`'s single `run` call. -/
def exampleProfiles : List NetworkProfile := [NetworkProfile.None]

/-- Group of `run_example`'s single `run` call. -/
def exampleGroup : GroupConfig :=
  { group_name := "example", chart_dimensions := [ChartDimension.Mos], x_labels := [] }

/-- Cases of `run_baseline_over_all_profiles`. -/
def baselineCases : List TestCaseConfig :=
  [{ defaultTestCaseConfig with
      test_case_name := "default"
      client_a_config := defaultCallConfig.with_audio_input_name "normal_phrasing"
      client_b_config := defaultCallConfig.with_audio_input_name "normal_phrasing" }]

/-- Profiles of `run_baseline_over_all_profiles`. -/
def baselineProfiles : List NetworkProfile :=
  [NetworkProfile.Default, NetworkProfile.Moderate, NetworkProfile.International,
   NetworkProfile.SpikyLoss, NetworkProfile.LimitedBandwidth 250,
   NetworkProfile.LimitedBandwidth 100, NetworkProfile.LimitedBandwidth 50,
   NetworkProfile.SimpleLoss 10, NetworkProfile.SimpleLoss 30]

/-- Group of `run_baseline_over_all_profiles`. -/
def baselineGroup : GroupConfig :=
  { group_name := "baseline_over_all_profiles"
    chart_dimensions := [ChartDimension.Mos], x_labels := [] }

/-- A `CallConfig` whose audio has the given input name and DTX setting, with
everything else defaulted — the shape used by the DTX test cases. -/
def audioCallConfig (name : String) (dtx : Bool) : CallConfig :=
  { defaultCallConfig with
      audio := { defaultAudioConfig with input_name := name, enable_dtx := dtx } }

/-- Cases of `run_dtx_tests_with_loss`: `with_dtx` and `no_dtx`. -/
def dtxCases : List TestCaseConfig :=
  [{ defaultTestCaseConfig with
      test_case_name := "with_dtx"
      client_a_config := audioCallConfig "normal_phrasing" true
      client_b_config := audioCallConfig "normal_phrasing" true },
   { defaultTestCaseConfig with
      test_case_name := "no_dtx"
      client_a_config := audioCallConfig "normal_phrasing" false
      client_b_config := audioCallConfig "normal_phrasing" false }]

/-- Profiles of `run_dtx_tests_with_loss`: no impairment plus five loss
levels. -/
def dtxProfiles : List NetworkProfile :=
  [NetworkProfile.None, NetworkProfile.SimpleLoss 5, NetworkProfile.SimpleLoss 10,
   NetworkProfile.SimpleLoss 20, NetworkProfile.SimpleLoss 30, NetworkProfile.SimpleLoss 40]

/-- Group of `run_dtx_tests_with_loss`. -/
def dtxGroup : GroupConfig :=
  { group_name := "dtx_tests_with_loss"
    chart_dimensions := [ChartDimension.Mos], x_labels := [] }

/-- A `CallConfig` for the relay test cases: audio input `normal_phrasing`
plus the given relay servers and force-relay flag. -/
def relayCallConfig (servers : List String) (force : Bool) : CallConfig :=
  { defaultCallConfig with
      audio := { defaultAudioConfig with input_name := "normal_phrasing" }
      relay_servers := servers
      force_relay := force }

/-- Cases of `run_example_with_relay`. -/
def relayCases : List TestCaseConfig :=
  [{ defaultTestCaseConfig with
      test_case_name := "no_relay"
      client_a_config := relayCallConfig [] false
      client_b_config := relayCallConfig [] false },
   { defaultTestCaseConfig with
      test_case_name := "with_relay"
      client_a_config := relayCallConfig ["turn:turn", "turn:turn:80?transport=tcp"] false
      client_b_config :=
        relayCallConfig ["stun:turn", "turn:turn", "turn:turn:80?transport=tcp"] false },
   { defaultTestCaseConfig with
      test_case_name := "force_udp_relay"
      client_a_config := relayCallConfig ["turn:turn"] true
      client_b_config := relayCallConfig ["turn:turn"] true },
   { defaultTestCaseConfig with
      test_case_name := "force_tcp_relay"
      client_a_config := relayCallConfig ["turn:turn:80?transport=tcp"] true
      client_b_config := relayCallConfig ["turn:turn:80?transport=tcp"] true }]

/-- Profiles of `run_example_with_relay`. -/
def relayProfiles : List NetworkProfile := [NetworkProfile.None]

/-- Group of `run_example_with_relay`. -/
def relayGroup : GroupConfig :=
  { group_name := "example_with_relay"
    chart_dimensions := [ChartDimension.Mos], x_labels := [] }

/-- The `test_cases` array of `run_ptime_analysis`: one case per packet size
in `[20, 40, 60, 120]`, named `ptime_{packet_size_ms}`, both clients using
that packet size and audio input `normal_phrasing`. -/
def ptimeCases : List TestCaseConfig :=
  [20, 40, 60, 120].map fun packet_size_ms =>
    { defaultTestCaseConfig with
        test_case_name := "ptime_" ++ toString packet_size_ms
        client_a_config :=
          CallConfig.with_audio_input_name
            { defaultCallConfig with
                audio := { defaultAudioConfig with packet_size_ms := packet_size_ms } }
            "normal_phrasing"
        client_b_config :=
          CallConfig.with_audio_input_name
            { defaultCallConfig with
                audio := { defaultAudioConfig with packet_size_ms := packet_size_ms } }
            "normal_phrasing" }

/-- Profiles of the `ptime_over_loss` group of `run_ptime_analysis`. -/
def ptimeLossProfiles : List NetworkProfile :=
  [NetworkProfile.None, NetworkProfile.SimpleLoss 10, NetworkProfile.SimpleLoss 20,
   NetworkProfile.SimpleLoss 30, NetworkProfile.SimpleLoss 40, NetworkProfile.SimpleLoss 50]

/-- First group of `run_ptime_analysis`. -/
def ptimeLossGroup : GroupConfig :=
  { group_name := "ptime_over_loss"
    chart_dimensions := [ChartDimension.Mos], x_labels := [] }

/-- Profiles of the `ptime_over_bandwidth` group of `run_ptime_analysis`. -/
def ptimeBandwidthProfiles : List NetworkProfile :=
  [NetworkProfile.None, NetworkProfile.LimitedBandwidth 250,
   NetworkProfile.LimitedBandwidth 125, NetworkProfile.LimitedBandwidth 100,
   NetworkProfile.LimitedBandwidth 75, NetworkProfile.LimitedBandwidth 50,
   NetworkProfile.LimitedBandwidth 25]

/-- Second group of `run_ptime_analysis`. -/
def ptimeBandwidthGroup : GroupConfig :=
  { group_name := "ptime_over_bandwidth"
    chart_dimensions := [ChartDimension.Mos], x_labels := [] }

/-- Cases of `run_video_send_over_bandwidth`: a single `video` case where
client A also sends video. -/
def videoSendCases : List TestCaseConfig :=
  [{ defaultTestCaseConfig with
      test_case_name := "video"
      client_a_config :=
        CallConfig.with_audio_input_name
          { defaultCallConfig with
              video := { defaultVideoConfig with
                           input_name := some "ConferenceMotion_50fps@1280x720" } }
          "normal_phrasing"
      client_b_config := defaultCallConfig.with_audio_input_name "normal_phrasing" }]

/-- Profiles of `run_video_send_over_bandwidth`. -/
def videoSendProfiles : List NetworkProfile :=
  [NetworkProfile.None, NetworkProfile.LimitedBandwidth 2000,
   NetworkProfile.LimitedBandwidth 1500, NetworkProfile.LimitedBandwidth 1250,
   NetworkProfile.LimitedBandwidth 1000, NetworkProfile.LimitedBandwidth 750,
   NetworkProfile.LimitedBandwidth 500, NetworkProfile.LimitedBandwidth 250,
   NetworkProfile.LimitedBandwidth 125, NetworkProfile.LimitedBandwidth 100,
   NetworkProfile.LimitedBandwidth 75, NetworkProfile.LimitedBandwidth 50]

/-- Group of `run_video_send_over_bandwidth`. -/
def videoSendGroup : GroupConfig :=
  { group_name := "video_send_over_bandwidth"
    chart_dimensions := [ChartDimension.Mos], x_labels := [] }

/-- A `CallConfig` for the codec-comparison cases: audio `normal_phrasing`
and bidirectional video with the given codec choice. -/
def videoCodecCallConfig (vp9 : Bool) : CallConfig :=
  { defaultCallConfig with
      audio := { defaultAudioConfig with input_name := "normal_phrasing" }
      video := { input_name := some "ConferenceMotion_50fps@1280x720", enable_vp9 := vp9 } }

/-- Cases of `run_video_compare_vp8_vs_vp9`. -/
def videoCompareCases : List TestCaseConfig :=
  [{ defaultTestCaseConfig with
      test_case_name := "vp8"
      client_a_config := videoCodecCallConfig false
      client_b_config := videoCodecCallConfig false },
   { defaultTestCaseConfig with
      test_case_name := "vp9"
      client_a_config := videoCodecCallConfig true
      client_b_config := videoCodecCallConfig true }]

/-- Profiles of `run_video_compare_vp8_vs_vp9`. -/
def videoCompareProfiles : List NetworkProfile := [NetworkProfile.Default]

/-- Group of `run_video_compare_vp8_vs_vp9`. -/
def videoCompareGroup : GroupConfig :=
  { group_name := "video_compare_vp8_vs_vp9"
    chart_dimensions := [ChartDimension.Mos], x_labels := [] }

/-- The `test_cases` array of `run_changing_bandwidth_audio_test`: one case
per packet size in `[20, 60, 120]`, length 240 seconds, both clients on the
12-second reference sound with `Chopped` analysis and no spectrogram. -/
def changingBandwidthCases : List TestCaseConfig :=
  [20, 60, 120].map fun packet_size_ms =>
    { defaultTestCaseConfig with
        test_case_name := "ptime_" ++ toString packet_size_ms
        length_seconds := 240
        client_a_config :=
          { defaultCallConfig with
              audio := { defaultAudioConfig with
                           input_name := "normal_12s"
                           packet_size_ms := packet_size_ms
                           analysis_mode := AudioAnalysisMode.Chopped
                           generate_spectrogram := false } }
        client_b_config :=
          { defaultCallConfig with
              audio := { defaultAudioConfig with
                           input_name := "normal_12s"
                           packet_size_ms := packet_size_ms
                           analysis_mode := AudioAnalysisMode.Chopped
                           generate_spectrogram := false } } }

/-- The single `Custom` network profile constructed anywhere in `main.rs`:
`limit_default`, with entries at 0 s (unimpaired), 60 s (rate 50 kbps),
120 s (rate 25 kbps) and 180 s (unimpaired). -/
def limitDefaultProfile : NetworkProfile :=
  NetworkProfile.Custom "limit_default"
    [{ offset := 0, network_config := defaultNetworkConfig },
     { offset := 60, network_config := { defaultNetworkConfig with rate := 50 } },
     { offset := 120, network_config := { defaultNetworkConfig with rate := 25 } },
     { offset := 180, network_config := defaultNetworkConfig }]

/-- Profiles of `run_changing_bandwidth_audio_test`. -/
def changingBandwidthProfiles : List NetworkProfile := [limitDefaultProfile]

/-- Group of `run_changing_bandwidth_audio_test`. -/
def changingBandwidthGroup : GroupConfig :=
  { group_name := "changing_bandwidth_audio_test"
    chart_dimensions := [ChartDimension.Mos], x_labels := [] }

/-- Every `run` call issued by the test-set catalogue of `main.rs`, in source
order: the `(group, cases, profiles)` triple of each. -/
def allRunCalls : List (GroupConfig × List TestCaseConfig × List NetworkProfile) :=
  [(exampleGroup, exampleCases, exampleProfiles),
   (baselineGroup, baselineCases, baselineProfiles),
   (dtxGroup, dtxCases, dtxProfiles),
   (relayGroup, relayCases, relayProfiles),
   (ptimeLossGroup, ptimeCases, ptimeLossProfiles),
   (ptimeBandwidthGroup, ptimeCases, ptimeBandwidthProfiles),
   (videoSendGroup, videoSendCases, videoSendProfiles),
   (videoCompareGroup, videoCompareCases, videoCompareProfiles),
   (changingBandwidthGroup, changingBandwidthCases, changingBandwidthProfiles)]

/-! The matrix runner, modelled from the spec (`test.rs` is not in the
sources at hand). -/

/-- One result record per run, keyed by group, case name and profile label
(§3 of the spec; metrics and artifacts are irrelevant to the claims and
omitted). -/
structure RunResult where
  group : String
  test_case_name : String
  profile_label : String
  succeeded : Bool
deriving DecidableEq, Repr

/-- The identity of a run result: `(case.name, profile label)` (§4.1). -/
def runId (r : RunResult) : String × String :=
  (r.test_case_name, r.profile_label)

/-- Modelled from the spec: the expansion of `Test::run` — "the Cartesian
product of `cases × profiles`, in the given order, each becoming one run
identified by `(case.name, profile.label)`" (§4.1). -/
def expandIds (cases : List TestCaseConfig) (profiles : List NetworkProfile) :
    List (String × String) :=
  cases.flatMap fun c => profiles.map fun p => (c.test_case_name, profileLabel p)

/-- Modelled from the spec: `Test::run` — every `(case, profile)` pair of the
Cartesian product becomes one run, executed in order; each run produces one
`RunResult` whether it succeeds or fails, and a failure never aborts the
remaining matrix (§4.1 step 8). The `outcome` parameter gives each run's
success or failure. -/
def runMatrix (g : GroupConfig) (cases : List TestCaseConfig)
    (profiles : List NetworkProfile) (outcome : String → String → Bool) :
    List RunResult :=
  cases.flatMap fun c => profiles.map fun p =>
    { group := g.group_name
      test_case_name := c.test_case_name
      profile_label := profileLabel p
      succeeded := outcome c.test_case_name (profileLabel p) }

/-- Offsets are strictly increasing. -/
def strictlyIncreasing : List Nat → Bool
  | a :: b :: rest => decide (a < b) && strictlyIncreasing (b :: rest)
  | _ => true

/-- A custom profile's offset sequence is strictly increasing and begins at
offset 0; any other variant passes vacuously. -/
def customProfileOk : NetworkProfile → Bool
  | NetworkProfile.Custom _ seq =>
      strictlyIncreasing (seq.map (·.offset)) &&
        ((seq.map (·.offset)).head? == some 0)
  | _ => true

/-! The control flow of `main` (`main.rs`, lines 562-617), as a trace of
events over the external effects, whose outcomes are parameters. -/

/-- One call a test-set function makes on its `Test` value: a
`preprocess_sounds` call or a `run` call (identified by its group name). -/
inductive Call
  | preprocessSounds (sounds : List String)
  | run (group : String)
deriving DecidableEq, Repr

/-- The calls each known test-set function makes, in source order. -/
def setCalls : String → List Call
  | "example" => [Call.preprocessSounds ["normal_phrasing"], Call.run "example"]
  | "baseline_over_all_profiles" => [Call.run "baseline_over_all_profiles"]
  | "dtx_tests_with_loss" => [Call.run "dtx_tests_with_loss"]
  | "example_with_relay" => [Call.run "example_with_relay"]
  | "ptime_analysis" =>
      [Call.preprocessSounds ["speaker_a", "speaker_b"],
       Call.run "ptime_over_loss", Call.run "ptime_over_bandwidth"]
  | "video_send_over_bandwidth" =>
      [Call.preprocessSounds ["normal_phrasing"], Call.run "video_send_over_bandwidth"]
  | "video_compare_vp8_vs_vp9" =>
      [Call.preprocessSounds ["normal_phrasing"], Call.run "video_compare_vp8_vs_vp9"]
  | "changing_bandwidth_audio_test" => [Call.run "changing_bandwidth_audio_test"]
  | _ => []

/-- The eight test-set names `main`'s dispatch knows. -/
def knownTestSets : List String :=
  ["example", "baseline_over_all_profiles", "dtx_tests_with_loss",
   "example_with_relay", "ptime_analysis", "video_send_over_bandwidth",
   "video_compare_vp8_vs_vp9", "changing_bandwidth_audio_test"]

/-- An observable step of `main`: invoking an external effect. -/
inductive Event
  | buildImages
  | cleanUp (names : List String)
  | cleanNetwork
  | createTest (name : String)
  | call (name : String) (c : Call)
  | report (name : String)
deriving DecidableEq, Repr

/-- How one invocation of `main` ends: normally, with a propagated error
(non-zero process outcome), or with the `unknown test set` panic. -/
inductive Outcome
  | ok
  | err
  | panicked (msg : String)
deriving DecidableEq, Repr

/-- The outcomes of the external effects `main` invokes: whether image
building, cleanup, `Test::new`, each test-set call and each report
succeed. -/
structure Env where
  buildOk : Bool
  cleanUpOk : Bool
  cleanNetworkOk : Bool
  newOk : String → Bool
  callOk : String → Call → Bool
  reportOk : String → Bool

/-- The body of one test-set function: its calls run in order; `?` propagates
the first failure, skipping the remaining calls. Returns the emitted events
and whether the function returned `Ok`. -/
def runSetCalls (env : Env) (name : String) : List Call → List Event × Bool
  | [] => ([], true)
  | c :: cs =>
      if env.callOk name c then
        let r := runSetCalls env name cs
        (Event.call name c :: r.1, r.2)
      else
        ([Event.call name c], false)

/-- The test-set loop of `main` (lines 596-615): for each requested name,
`Test::new`, then the dispatch (panicking on an unknown name), then
`test.report()`; every `?` propagates the failure out of `main`, ending the
loop. -/
def runSets (env : Env) : List String → List Event × Outcome
  | [] => ([], Outcome.ok)
  | name :: rest =>
      if env.newOk name then
        if name ∈ knownTestSets then
          let r := runSetCalls env name (setCalls name)
          if r.2 then
            if env.reportOk name then
              let s := runSets env rest
              (Event.createTest name :: r.1 ++ Event.report name :: s.1, s.2)
            else
              (Event.createTest name :: r.1 ++ [Event.report name], Outcome.err)
          else
            (Event.createTest name :: r.1, Outcome.err)
        else
          ([Event.createTest name],
           Outcome.panicked ("unknown test set \"" ++ name ++ "\""))
      else
        ([Event.createTest name], Outcome.err)

/-- The command-line arguments `main` consults (paths are irrelevant to the
claims and omitted). -/
structure Args where
  test_sets : List String
  build : Bool
  clean : Bool

/-- The test sets `main` runs: the requested ones, or `example` when none
was requested (lines 590-594). -/
def effectiveTestSets (names : List String) : List String :=
  if names.isEmpty then ["example"] else names

/-- The container names `main` passes to `clean_up` (lines 578-585). -/
def cleanupContainers : List String :=
  ["client_a", "client_b", "signaling_server", "turn", "tcpdump", "visqol"]

/-- `main` (lines 562-617): optional `build_images`, optional
`clean_up`/`clean_network`, then the test-set loop; each `?` propagates the
first failure. Returns the trace of invoked effects and the outcome. -/
def mainModel (args : Args) (env : Env) : List Event × Outcome :=
  if args.build && !env.buildOk then
    ([Event.buildImages], Outcome.err)
  else
    let buildEvents : List Event := if args.build then [Event.buildImages] else []
    if args.clean then
      if !env.cleanUpOk then
        (buildEvents ++ [Event.cleanUp cleanupContainers], Outcome.err)
      else if !env.cleanNetworkOk then
        (buildEvents ++ [Event.cleanUp cleanupContainers, Event.cleanNetwork], Outcome.err)
      else
        let r := runSets env (effectiveTestSets args.test_sets)
        (buildEvents ++ Event.cleanUp cleanupContainers :: Event.cleanNetwork :: r.1, r.2)
    else
      let r := runSets env (effectiveTestSets args.test_sets)
      (buildEvents ++ r.1, r.2)

/-- Recognizes `Test::new` events. -/
def isCreateTest : Event → Bool
  | Event.createTest _ => true
  | _ => false

/-- Recognizes test-set call events (`preprocess_sounds` / `run`). -/
def isCall : Event → Bool
  | Event.call _ _ => true
  | _ => false

/-- The `AudioConfig` shape exactly as §3 of the spec words it — `input_name`
an *optional* string — kept separate so the spec's data model can be compared
with the source's. -/
structure SpecAudioConfig where
  input_name : Option String
  packet_size_ms : Nat
  enable_dtx : Bool
  analysis_mode : AudioAnalysisMode
  generate_spectrogram : Bool
deriving DecidableEq, Repr

/-- The natural reading of a source `AudioConfig` at the spec's type: the
input name is always present. -/
def audioConfigToSpec (c : AudioConfig) : SpecAudioConfig :=
  { input_name := some c.input_name
    packet_size_ms := c.packet_size_ms
    enable_dtx := c.enable_dtx
    analysis_mode := c.analysis_mode
    generate_spectrogram := c.generate_spectrogram }

/-! Helper lemmas shared by the claim theorems. -/

theorem runMatrix_length (g : GroupConfig) (cases : List TestCaseConfig)
    (profiles : List NetworkProfile) (outcome : String → String → Bool) :
    (runMatrix g cases profiles outcome).length = cases.length * profiles.length := by
  induction cases with
  | nil => simp [runMatrix]
  | cons c cs ih =>
    simp only [runMatrix, List.flatMap_cons, List.length_append, List.length_map,
      List.length_cons] at ih ⊢
    rw [ih]
    ring

theorem runMatrix_map_runId (g : GroupConfig) (cases : List TestCaseConfig)
    (profiles : List NetworkProfile) (outcome : String → String → Bool) :
    (runMatrix g cases profiles outcome).map runId = expandIds cases profiles := by
  induction cases with
  | nil => rfl
  | cons c cs ih =>
    simp only [runMatrix, expandIds, List.flatMap_cons, List.map_append, List.map_map] at ih ⊢
    rw [ih]
    simp [runId, Function.comp]

theorem runSetCalls_isCall (env : Env) (name : String) (cs : List Call) :
    ∀ e ∈ (runSetCalls env name cs).1, isCall e = true := by
  induction cs with
  | nil => intro e he; simp [runSetCalls] at he
  | cons c cs ih =>
    intro e he
    by_cases h : env.callOk name c = true
    · simp only [runSetCalls, h, if_pos] at he
      rcases List.mem_cons.mp he with rfl | he
      · rfl
      · exact ih e he
    · simp only [runSetCalls, h, if_neg, Bool.not_eq_true] at he
      simp at he
      subst he
      rfl

theorem runSetCalls_all_ok (env : Env) (name : String) (cs : List Call)
    (h : ∀ c ∈ cs, env.callOk name c = true) :
    runSetCalls env name cs = (cs.map (Event.call name), true) := by
  induction cs with
  | nil => rfl
  | cons c cs ih =>
    have hc : env.callOk name c = true := h c (by simp)
    simp [runSetCalls, hc, ih (fun x hx => h x (by simp [hx]))]

theorem filter_isCreateTest_runSetCalls (env : Env) (name : String) (cs : List Call) :
    (runSetCalls env name cs).1.filter isCreateTest = [] := by
  induction cs with
  | nil => rfl
  | cons c cs ih =>
    by_cases h : env.callOk name c = true
    · simp [runSetCalls, h, List.filter_cons, isCreateTest, ih]
    · simp [runSetCalls, h, List.filter_cons, isCreateTest]

theorem filter_isCreateTest_runSets_one (env : Env) (name : String) :
    ((runSets env [name]).1.filter isCreateTest) = [Event.createTest name] := by
  by_cases h1 : env.newOk name = true
  · by_cases h2 : name ∈ knownTestSets
    · by_cases h3 : (runSetCalls env name (setCalls name)).2 = true
      · by_cases h4 : env.reportOk name = true
        · simp [runSets, h1, h2, h3, h4, List.filter_cons, List.filter_append,
            isCreateTest, filter_isCreateTest_runSetCalls]
        · simp [runSets, h1, h2, h3, h4, List.filter_cons, List.filter_append,
            isCreateTest, filter_isCreateTest_runSetCalls]
      · simp [runSets, h1, h2, h3, List.filter_cons, isCreateTest,
          filter_isCreateTest_runSetCalls]
    · simp [runSets, h1, h2, List.filter_cons, isCreateTest]
  · simp [runSets, h1, List.filter_cons, isCreateTest]

/-- An environment in which every external effect succeeds. -/
def allOkEnv : Env :=
  { buildOk := true, cleanUpOk := true, cleanNetworkOk := true
    newOk := fun _ => true, callOk := fun _ _ => true, reportOk := fun _ => true }

/-! The claims. -/

/-- C1: expanding `cases × profiles` with `|cases| = m` and `|profiles| = n`
yields exactly `m * n` `RunResult`s, with the expected `(case.name,
profile.label)` identities regardless of which runs fail — so a single
failing run neither reduces the count nor stops subsequent runs; in
particular `dtx_tests_with_loss` (2 cases × 6 profiles) produces exactly 12
`RunResult`s for every assignment of failures. -/
theorem claim_C1_matrix_expansion :
    (∀ (g : GroupConfig) (cases : List TestCaseConfig) (profiles : List NetworkProfile)
        (outcome : String → String → Bool),
      (runMatrix g cases profiles outcome).length = cases.length * profiles.length ∧
      (runMatrix g cases profiles outcome).map runId = expandIds cases profiles) ∧
    (∀ outcome : String → String → Bool,
      (runMatrix dtxGroup dtxCases dtxProfiles outcome).length = 12 ∧
      (runMatrix dtxGroup dtxCases dtxProfiles outcome).map runId =
        (runMatrix dtxGroup dtxCases dtxProfiles fun _ _ => true).map runId) := by
  constructor
  · intro g cases profiles outcome
    exact ⟨runMatrix_length g cases profiles outcome,
      runMatrix_map_runId g cases profiles outcome⟩
  · intro outcome
    constructor
    · rw [runMatrix_length]
      decide
    · rw [runMatrix_map_runId, runMatrix_map_runId]

/-- C2: every `Custom` network profile constructed in the source has a
strictly increasing offset sequence beginning at offset 0; the
`changing_bandwidth_audio_test` set runs 240-second cases in `Chopped`
analysis mode against the single `Custom` profile `limit_default`, whose
sequence has exactly the four entries (0 s, unimpaired), (60 s, rate 50),
(120 s, rate 25), (180 s, unimpaired). -/
theorem claim_C2_custom_profile_offsets :
    (∀ t ∈ allRunCalls, ∀ p ∈ t.2.2, customProfileOk p = true) ∧
    changingBandwidthProfiles =
      [NetworkProfile.Custom "limit_default"
        [{ offset := 0, network_config := defaultNetworkConfig },
         { offset := 60, network_config := { defaultNetworkConfig with rate := 50 } },
         { offset := 120, network_config := { defaultNetworkConfig with rate := 25 } },
         { offset := 180, network_config := defaultNetworkConfig }]] ∧
    (∀ c ∈ changingBandwidthCases,
      c.length_seconds = 240 ∧
      c.client_a_config.audio.analysis_mode = AudioAnalysisMode.Chopped ∧
      c.client_b_config.audio.analysis_mode = AudioAnalysisMode.Chopped) := by
  refine ⟨by decide, by decide, by decide⟩

/-- C2 witness: the `limit_default` profile itself passes the offset
check. -/
theorem claim_C2_witness : customProfileOk limitDefaultProfile = true :=
  claim_C2_custom_profile_offsets.1
    (changingBandwidthGroup, changingBandwidthCases, changingBandwidthProfiles)
    (by decide) limitDefaultProfile (by decide)

/-- C3: for every `run` call in the catalogue, the expanded
`(test_case_name, profile label)` identities are pairwise distinct; the
`ptime_analysis` set reuses the names `ptime_20`, `ptime_40`, `ptime_60`,
`ptime_120` in both of its groups, and each group's expansion is still
duplicate-free. -/
theorem claim_C3_run_identities_distinct :
    (∀ t ∈ allRunCalls, (expandIds t.2.1 t.2.2).Nodup) ∧
    ptimeCases.map (·.test_case_name) =
      ["ptime_20", "ptime_40", "ptime_60", "ptime_120"] := by
  refine ⟨by decide, by decide⟩

/-- C3 witness: the first `ptime_analysis` group's expansion is
duplicate-free. -/
theorem claim_C3_witness : (expandIds ptimeCases ptimeLossProfiles).Nodup :=
  claim_C3_run_identities_distinct.1 (ptimeLossGroup, ptimeCases, ptimeLossProfiles)
    (by decide)

/-- C4: when every requested test set completes without error, the trace of
`main`'s loop is, per set in order: one `Test::new`, then all of that set's
calls in order, then exactly one `report` — so each set's report follows all
of its `run` calls and each set gets exactly one report. -/
theorem claim_C4_report_once_after_runs (env : Env) (names : List String)
    (h : ∀ n ∈ names, env.newOk n = true ∧ n ∈ knownTestSets ∧
      (∀ c ∈ setCalls n, env.callOk n c = true) ∧ env.reportOk n = true) :
    runSets env names =
      (names.flatMap fun n =>
        Event.createTest n :: (setCalls n).map (Event.call n) ++ [Event.report n],
       Outcome.ok) := by
  induction names with
  | nil => rfl
  | cons n rest ih =>
    obtain ⟨h1, h2, h3, h4⟩ := h n (by simp)
    simp [runSets, h1, h2, h4, runSetCalls_all_ok env n _ h3,
      ih (fun m hm => h m (by simp [hm]))]

/-- C4 witness: the loop trace for `example` followed by `ptime_analysis`
under an all-succeeding environment. -/
theorem claim_C4_witness :
    runSets allOkEnv ["example", "ptime_analysis"] =
      (["example", "ptime_analysis"].flatMap fun n =>
        Event.createTest n :: (setCalls n).map (Event.call n) ++ [Event.report n],
       Outcome.ok) :=
  claim_C4_report_once_after_runs allOkEnv ["example", "ptime_analysis"] (by decide)

/-- C5: when the `--build` flag is set and `build_images` fails, the whole
invocation ends immediately with an error outcome: the trace is just the
`build_images` invocation, so no `Test` is created and no test-set call
runs. -/
theorem claim_C5_build_failure_fatal (args : Args) (env : Env)
    (hb : args.build = true) (hfail : env.buildOk = false) :
    mainModel args env = ([Event.buildImages], Outcome.err) ∧
    (∀ n, Event.createTest n ∉ (mainModel args env).1) ∧
    (∀ n c, Event.call n c ∉ (mainModel args env).1) := by
  have heq : mainModel args env = ([Event.buildImages], Outcome.err) := by
    simp [mainModel, hb, hfail]
  refine ⟨heq, ?_, ?_⟩ <;> simp [heq]

/-- C5 witness: a concrete `--build` invocation whose image build fails. -/
theorem claim_C5_witness :
    mainModel { test_sets := ["example"], build := true, clean := false }
        { allOkEnv with buildOk := false } =
      ([Event.buildImages], Outcome.err) :=
  (claim_C5_build_failure_fatal
      { test_sets := ["example"], build := true, clean := false }
      { allOkEnv with buildOk := false } rfl rfl).1

/-- C6: when the `--clean` flag is set (and cleanup succeeds), the trace
starts with at most a `build_images` invocation, then `clean_up` applied to
exactly the six container names `client_a`, `client_b`, `signaling_server`,
`turn`, `tcpdump`, `visqol`, then `clean_network`, and only after that the
test-set loop's suffix — so both cleanup steps complete before any test
set's runs begin. -/
theorem claim_C6_cleanup_before_runs (args : Args) (env : Env) (hc : args.clean = true)
    (h1 : env.cleanUpOk = true) (h2 : env.cleanNetworkOk = true)
    (hb : args.build = true → env.buildOk = true) :
    ∃ t, (mainModel args env).1 =
        (if args.build then [Event.buildImages] else []) ++
          Event.cleanUp ["client_a", "client_b", "signaling_server", "turn",
            "tcpdump", "visqol"] :: Event.cleanNetwork :: t ∧
      (∀ e ∈ (if args.build then [Event.buildImages] else ([] : List Event)),
        isCall e = false ∧ isCreateTest e = false) := by
  refine ⟨(runSets env (effectiveTestSets args.test_sets)).1, ?_, ?_⟩
  · cases hbuild : args.build with
    | false => simp [mainModel, hbuild, hc, h1, h2, cleanupContainers]
    | true =>
      have hok := hb hbuild
      simp [mainModel, hbuild, hok, hc, h1, h2, cleanupContainers]
  · cases hbuild : args.build with
    | false => simp
    | true => simp [isCall, isCreateTest]

/-- C6 witness: a concrete `--clean` invocation. -/
theorem claim_C6_witness :
    ∃ t, (mainModel { test_sets := ["example"], build := false, clean := true }
        allOkEnv).1 =
        (if ({ test_sets := ["example"], build := false, clean := true } : Args).build
          then [Event.buildImages] else []) ++
          Event.cleanUp ["client_a", "client_b", "signaling_server", "turn",
            "tcpdump", "visqol"] :: Event.cleanNetwork :: t ∧
      (∀ e ∈ (if ({ test_sets := ["example"], build := false, clean := true } : Args).build
          then [Event.buildImages] else ([] : List Event)),
        isCall e = false ∧ isCreateTest e = false) :=
  claim_C6_cleanup_before_runs
    { test_sets := ["example"], build := false, clean := true } allOkEnv
    rfl rfl rfl (fun _ => rfl)

/-- C7 counterexample: in the code, `AudioConfig.input_name` is a plain
string, so no `AudioConfig` realizes the spec's absent state (`input_name =
none`), while `VideoConfig.input_name` does admit the absent state — the two
fields are not optional "in the same way". -/
theorem claim_C7_counterexample :
    (¬ ∃ c : AudioConfig, (audioConfigToSpec c).input_name = Option.none) ∧
    ∃ v : VideoConfig, v.input_name = Option.none := by
  constructor
  · rintro ⟨c, h⟩
    simp [audioConfigToSpec] at h
  · exact ⟨defaultVideoConfig, rfl⟩

/-- C7 amended: `AudioConfig.input_name` is a required plain string — every
`AudioConfig` maps to a present (`some`) spec-level input name, and the
source constructs it with concrete strings — while `VideoConfig.input_name`
is optional and absent by default. -/
theorem claim_C7_audio_input_required :
    (∀ c : AudioConfig, (audioConfigToSpec c).input_name = some c.input_name) ∧
    defaultVideoConfig.input_name = Option.none ∧
    dtxCases.map (fun c => c.client_a_config.audio.input_name) =
      ["normal_phrasing", "normal_phrasing"] := by
  refine ⟨fun c => rfl, rfl, by decide⟩

/-- C8: when no test-set names are supplied, the invocation runs exactly one
test set, the one named `example`: the effective test-set list is
`["example"]` and the trace contains exactly one `Test::new`, for
`example`. -/
theorem claim_C8_default_test_set (args : Args) (env : Env) (h : args.test_sets = [])
    (hb : args.build = true → env.buildOk = true)
    (hcu : args.clean = true → env.cleanUpOk = true)
    (hcn : args.clean = true → env.cleanNetworkOk = true) :
    effectiveTestSets args.test_sets = ["example"] ∧
    (mainModel args env).1.filter isCreateTest = [Event.createTest "example"] := by
  have heff : effectiveTestSets args.test_sets = ["example"] := by
    simp [effectiveTestSets, h]
  refine ⟨heff, ?_⟩
  cases hbuild : args.build with
  | false =>
    cases hclean : args.clean with
    | false =>
      simp [mainModel, hbuild, hclean, heff, filter_isCreateTest_runSets_one]
    | true =>
      have hc1 := hcu hclean
      have hc2 := hcn hclean
      simp [mainModel, hbuild, hclean, hc1, hc2, heff, List.filter_cons, isCreateTest,
        filter_isCreateTest_runSets_one]
  | true =>
    have hok := hb hbuild
    cases hclean : args.clean with
    | false =>
      simp [mainModel, hbuild, hclean, hok, heff, List.filter_cons, isCreateTest,
        filter_isCreateTest_runSets_one]
    | true =>
      have hc1 := hcu hclean
      have hc2 := hcn hclean
      simp [mainModel, hbuild, hclean, hok, hc1, hc2, heff, List.filter_cons, isCreateTest,
        filter_isCreateTest_runSets_one]

/-- C8 witness: an invocation with an empty test-set list. -/
theorem claim_C8_witness :
    effectiveTestSets ([] : List String) = ["example"] ∧
    (mainModel { test_sets := [], build := false, clean := false } allOkEnv).1.filter
        isCreateTest = [Event.createTest "example"] :=
  claim_C8_default_test_set { test_sets := [], build := false, clean := false } allOkEnv
    rfl (fun _ => rfl) (fun _ => rfl) (fun _ => rfl)

/-- C9: for a requested name outside the eight known test sets, the loop
creates the `Test`, then panics with the `unknown test set` message: no
report happens for it and none of the remaining names are processed. -/
theorem claim_C9_unknown_test_set_panics (env : Env) (name : String) (rest : List String)
    (hk : name ∉ knownTestSets) (hnew : env.newOk name = true) :
    runSets env (name :: rest) =
      ([Event.createTest name],
       Outcome.panicked ("unknown test set \"" ++ name ++ "\"")) ∧
    Event.report name ∉ (runSets env (name :: rest)).1 := by
  have heq : runSets env (name :: rest) =
      ([Event.createTest name],
       Outcome.panicked ("unknown test set \"" ++ name ++ "\"")) := by
    simp [runSets, hnew, hk]
  refine ⟨heq, ?_⟩
  simp [heq]

/-- C9 witness: the unknown name `bogus` followed by a known set. -/
theorem claim_C9_witness :
    runSets allOkEnv ["bogus", "example"] =
      ([Event.createTest "bogus"],
       Outcome.panicked ("unknown test set \"" ++ "bogus" ++ "\"")) :=
  (claim_C9_unknown_test_set_panics allOkEnv "bogus" ["example"] (by decide) rfl).1

/-- C10: when a test-set function returns an error, `main` propagates it
immediately: the trace ends with that set's partial calls, its report never
happens, and the remaining requested sets are not run. -/
theorem claim_C10_run_error_propagates (env : Env) (name : String) (rest : List String)
    (hk : name ∈ knownTestSets) (hnew : env.newOk name = true)
    (hfail : (runSetCalls env name (setCalls name)).2 = false) :
    runSets env (name :: rest) =
      (Event.createTest name :: (runSetCalls env name (setCalls name)).1, Outcome.err) ∧
    Event.report name ∉ (runSets env (name :: rest)).1 := by
  have heq : runSets env (name :: rest) =
      (Event.createTest name :: (runSetCalls env name (setCalls name)).1, Outcome.err) := by
    simp [runSets, hnew, hk, hfail]
  refine ⟨heq, ?_⟩
  rw [heq]
  intro hmem
  rcases List.mem_cons.mp hmem with h | h
  · exact Event.noConfusion h
  · have := runSetCalls_isCall env name (setCalls name) _ h
    simp [isCall] at this

/-- C10 witness: `example` fails at its first call; `dtx_tests_with_loss`
was also requested but is never run and no report happens. -/
theorem claim_C10_witness :
    Event.report "example" ∉
      (runSets { allOkEnv with callOk := fun _ _ => false }
        ["example", "dtx_tests_with_loss"]).1 :=
  (claim_C10_run_error_propagates { allOkEnv with callOk := fun _ _ => false }
    "example" ["dtx_tests_with_loss"] (by decide) rfl rfl).2

end CallSim
